import Mathlib

/-!
Shallow embedding of the indicator-to-subplot classification, trace building
and layout composition pipeline of `src/web/src/components/ChartAnalysis.js`
(FAnalysis repository), together with theorems checking the specification's
claims about it.

Modelling conventions:
* A JavaScript cell value (a field of a data row) is `Option ℚ`: `some q` is a
  finite number, `none` covers `null`, `undefined`, `NaN` and `±Infinity`
  (everything the source's `isNumeric` rejects).  In every place the source
  applies a numeric comparison to a possibly-`null` value we reproduce the
  JavaScript coercion explicitly (`null >= 0` is `true`, i.e. `none` coerces
  to `0`).
* A data row is its `Date` string plus an association list of named columns;
  a missing column reads as `none`, exactly as `row[key]` yields `undefined`.
* Plotly style/trace/layout objects become Lean structures whose fields are
  the fields the source actually writes; absent JS fields are `Option`s.
* JavaScript `array.some(isNumeric)`, `array.map`, `forEach`+`push` and
  object spread become `List.any`, `List.map`, `List.flatMap` and per-field
  overriding merges.
-/

namespace FAnalysis

/-- A JavaScript numeric cell: `some q` is a finite number, `none` stands for
`null` / `undefined` / `NaN` / `Infinity`. -/
abbrev JSVal := Option ℚ

/-- Source `isNumeric(value)`: true exactly on finite numbers. -/
def isNumeric (v : JSVal) : Bool := v.isSome

/-- One data row: the `Date` string and the open set of named numeric columns
(`Open`, `High`, `Low`, `Close`, indicator columns...). -/
structure Row where
  Date : String
  cols : List (String × JSVal)
deriving DecidableEq

/-- Property read `row[key]`: a missing key is `undefined`, i.e. `none`. -/
def Row.get (r : Row) (k : String) : JSVal := (r.cols.lookup k).join

/-- Whether the first character list is a leading segment of the second
(JavaScript `String.prototype.startsWith` on char lists). -/
def startsList : List Char → List Char → Bool
  | [], _ => true
  | _ :: _, [] => false
  | p :: ps, c :: cs => p == c && startsList ps cs

/-- Whether the first character list occurs contiguously inside the second
(JavaScript `String.prototype.includes` on char lists). -/
def containsList (pat : List Char) : List Char → Bool
  | [] => startsList pat []
  | c :: cs => startsList pat (c :: cs) || containsList pat cs

/-- JavaScript `s.startsWith(pre)`. -/
def jsStartsWith (s pre : String) : Bool := startsList pre.data s.data

/-- JavaScript `s.endsWith(suff)`. -/
def jsEndsWith (s suff : String) : Bool := startsList suff.data.reverse s.data.reverse

/-- JavaScript `s.includes(sub)`. -/
def jsIncludes (s sub : String) : Bool := containsList sub.data s.data

/-! ### Static configuration (`DEFAULT_VISIBLE_INDICATORS`, `INDICATOR_CONFIG`) -/

/-- `DEFAULT_VISIBLE_INDICATORS.mainPlot`. -/
def DEFAULT_VISIBLE_mainPlot : List String := ["SMA20", "SMA50", "SMA200", "EMA20"]

/-- `DEFAULT_VISIBLE_INDICATORS.oscillators`. -/
def DEFAULT_VISIBLE_oscillators : List String := ["RSI", "STOCH_K", "STOCH_D"]

/-- `DEFAULT_VISIBLE_INDICATORS.macd`. -/
def DEFAULT_VISIBLE_macd : List String := ["MACD", "MACD_Signal", "MACD_Histogram"]

/-- `DEFAULT_VISIBLE_INDICATORS.bollinger`. -/
def DEFAULT_VISIBLE_bollinger : List String := ["BB_High", "BB_Mid", "BB_Low"]

/-- `DEFAULT_VISIBLE_INDICATORS.volume`. -/
def DEFAULT_VISIBLE_volume : List String := ["OBV", "OBV_MA"]

/-- `DEFAULT_VISIBLE_INDICATORS.hidden`. -/
def DEFAULT_VISIBLE_hidden : List String :=
  ["SMA5", "SMA9", "SMA10", "SMA21", "SMA100", "SMA150",
   "EMA5", "EMA9", "EMA10", "EMA12", "EMA26", "EMA50", "EMA100", "EMA150", "EMA200",
   "BB_Tight_High", "BB_Tight_Mid", "BB_Tight_Low",
   "BB_Wide_High", "BB_Wide_Mid", "BB_Wide_Low",
   "RSI7", "MACD_HF", "MACD_HF_Signal", "MACD_HF_Histogram",
   "Keltner_High", "Keltner_Mid", "Keltner_Low"]

/-- `INDICATOR_CONFIG.mainPlot`: name-prefixes routed to the price pane. -/
def INDICATOR_CONFIG_mainPlot : List String := ["SMA", "EMA"]

/-- `INDICATOR_CONFIG.subplots.y2` (oscillators). -/
def subplots_y2 : List String := ["RSI", "STOCH_K", "STOCH_D", "ADX", "RSI7", "PDI", "NDI"]

/-- `INDICATOR_CONFIG.subplots.y3` (MACD group). -/
def subplots_y3 : List String :=
  ["MACD", "MACD_Signal", "MACD_Histogram", "MACD_HF", "MACD_HF_Signal", "MACD_HF_Histogram"]

/-- `INDICATOR_CONFIG.subplots.y4` (bands and overlays). -/
def subplots_y4 : List String :=
  ["BB_High", "BB_Mid", "BB_Low", "BB_Tight_High", "BB_Tight_Mid", "BB_Tight_Low",
   "BB_Wide_High", "BB_Wide_Mid", "BB_Wide_Low", "Ichimoku_Tenkan", "Ichimoku_Kijun",
   "Ichimoku_SpanA", "Ichimoku_SpanB", "Ichimoku_Chikou", "SAR", "ATR", "ATR_Percent"]

/-- `INDICATOR_CONFIG.subplots.y5` (volume based). -/
def subplots_y5 : List String := ["OBV", "OBV_MA"]

/-- `INDICATOR_CONFIG.subplots` in declared (insertion) order, as traversed by
`Object.entries`. -/
def INDICATOR_CONFIG_subplots : List (String × List String) :=
  [("y2", subplots_y2), ("y3", subplots_y3), ("y4", subplots_y4), ("y5", subplots_y5)]

/-- `INDICATOR_CONFIG.histogramTypes`. -/
def INDICATOR_CONFIG_histogramTypes : List String :=
  ["Histogram", "MACD_Histogram", "MACD_HF_Histogram"]

/-! ### Style objects -/

/-- A Plotly `line` style object. -/
structure LineStyle where
  color : Option String := none
  width : Option ℚ := none
  dash : Option String := none
deriving DecidableEq

/-- A Plotly marker color: a single color string or one color per bar. -/
inductive MarkerColor where
  | single (c : String)
  | perBar (cs : List String)
deriving DecidableEq

/-- A Plotly `marker` style object. -/
structure MarkerStyle where
  size : Option ℚ := none
  color : Option MarkerColor := none
deriving DecidableEq

/-- The style object built by `getIndicatorStyle` (after merging). -/
structure Style where
  type : String := "scatter"
  mode : Option String := some "lines"
  line : Option LineStyle := none
  marker : Option MarkerStyle := none
  visible : Bool := true
  name : Option String := none
  fill : Option String := none
  fillcolor : Option String := none
deriving DecidableEq

/-- One entry of `INDICATOR_CONFIG.styling`: only the fields the entry
literally carries are `some`; the JS object spread overrides exactly those. -/
structure StylingEntry where
  type : Option String := none
  mode : Option String := none
  line : Option LineStyle := none
  marker : Option MarkerStyle := none
  visible : Option Bool := none
  name : Option String := none
  fill : Option String := none
  fillcolor : Option String := none
deriving DecidableEq

/-- The JS shallow merge `{...style, ...entry}`: fields present on the entry
override the computed style, the rest survive. -/
def mergeStyle (s : Style) (e : StylingEntry) : Style :=
  { type := e.type.getD s.type
    mode := match e.mode with | some m => some m | none => s.mode
    line := match e.line with | some l => some l | none => s.line
    marker := match e.marker with | some m => some m | none => s.marker
    visible := e.visible.getD s.visible
    name := match e.name with | some n => some n | none => s.name
    fill := match e.fill with | some f => some f | none => s.fill
    fillcolor := match e.fillcolor with | some f => some f | none => s.fillcolor }

/-- `INDICATOR_CONFIG.styling` as an association list in declared order. -/
def INDICATOR_CONFIG_styling : List (String × StylingEntry) :=
  [("BB_High",
    { line := some { color := some "rgba(65, 105, 225, 0.9)", width := some 2 },
      name := some "布林上轨", visible := some true }),
   ("BB_Mid",
    { line := some { color := some "rgba(65, 105, 225, 0.9)", dash := some "dash", width := some 2 },
      name := some "布林中轨", visible := some true }),
   ("BB_Low",
    { line := some { color := some "rgba(65, 105, 225, 0.9)", width := some 2 },
      fill := some "tonexty", fillcolor := some "rgba(65, 105, 225, 0.15)",
      name := some "布林下轨", visible := some true }),
   ("BB_Tight_High",
    { line := some { color := some "rgba(30, 144, 255, 0.8)", width := some (3/2) },
      name := some "紧布林上轨", visible := some false }),
   ("BB_Tight_Mid",
    { line := some { color := some "rgba(30, 144, 255, 0.8)", dash := some "dash", width := some (3/2) },
      name := some "紧布林中轨", visible := some false }),
   ("BB_Tight_Low",
    { line := some { color := some "rgba(30, 144, 255, 0.8)", width := some (3/2) },
      fill := some "tonexty", fillcolor := some "rgba(30, 144, 255, 0.1)",
      name := some "紧布林下轨", visible := some false }),
   ("BB_Wide_High",
    { line := some { color := some "rgba(25, 25, 112, 0.8)", width := some (3/2) },
      name := some "宽布林上轨", visible := some false }),
   ("BB_Wide_Mid",
    { line := some { color := some "rgba(25, 25, 112, 0.8)", dash := some "dash", width := some (3/2) },
      name := some "宽布林中轨", visible := some false }),
   ("BB_Wide_Low",
    { line := some { color := some "rgba(25, 25, 112, 0.8)", width := some (3/2) },
      fill := some "tonexty", fillcolor := some "rgba(25, 25, 112, 0.1)",
      name := some "宽布林下轨", visible := some false }),
   ("Ichimoku_SpanA",
    { line := some { color := some "rgba(0, 128, 0, 0.7)", width := some 2 },
      name := some "转折线A", visible := some false }),
   ("Ichimoku_SpanB",
    { line := some { color := some "rgba(220, 20, 60, 0.7)", width := some 2 },
      fill := some "tonexty", fillcolor := some "rgba(200, 200, 200, 0.3)",
      name := some "转折线B", visible := some false }),
   ("Ichimoku_Tenkan",
    { line := some { color := some "rgba(0, 0, 255, 0.8)", width := some 2 },
      name := some "转换线", visible := some false }),
   ("Ichimoku_Kijun",
    { line := some { color := some "rgba(255, 0, 0, 0.8)", width := some 2 },
      name := some "基准线", visible := some false }),
   ("Ichimoku_Chikou",
    { line := some { color := some "rgba(0, 128, 0, 0.8)", width := some 2 },
      name := some "迟行线", visible := some false }),
   ("SAR",
    { mode := some "markers",
      marker := some { size := some 4, color := some (MarkerColor.single "rgba(128, 0, 128, 0.8)") },
      name := some "SAR", visible := some false }),
   ("SMA5",
    { line := some { color := some "rgba(30, 144, 255, 0.9)", width := some 2 },
      name := some "SMA5", visible := some false }),
   ("SMA10",
    { line := some { color := some "rgba(220, 20, 60, 0.9)", width := some 2 },
      name := some "SMA10", visible := some false }),
   ("SMA20",
    { line := some { color := some "rgba(50, 205, 50, 1)", width := some (5/2) },
      name := some "SMA20", visible := some true }),
   ("SMA50",
    { line := some { color := some "rgba(148, 0, 211, 1)", width := some (5/2) },
      name := some "SMA50", visible := some true }),
   ("SMA100",
    { line := some { color := some "rgba(255, 140, 0, 0.9)", width := some 2 },
      name := some "SMA100", visible := some false }),
   ("SMA200",
    { line := some { color := some "rgba(0, 0, 0, 1)", width := some 3 },
      name := some "SMA200", visible := some true }),
   ("EMA5",
    { line := some { color := some "rgba(30, 144, 255, 0.9)", width := some 2, dash := some "dot" },
      name := some "EMA5", visible := some false }),
   ("EMA10",
    { line := some { color := some "rgba(220, 20, 60, 0.9)", width := some 2, dash := some "dot" },
      name := some "EMA10", visible := some false }),
   ("EMA20",
    { line := some { color := some "rgba(50, 205, 50, 1)", width := some (5/2), dash := some "dot" },
      name := some "EMA20", visible := some true }),
   ("EMA50",
    { line := some { color := some "rgba(148, 0, 211, 0.9)", width := some 2, dash := some "dot" },
      name := some "EMA50", visible := some false }),
   ("EMA100",
    { line := some { color := some "rgba(255, 140, 0, 0.9)", width := some 2, dash := some "dot" },
      name := some "EMA100", visible := some false }),
   ("EMA200",
    { line := some { color := some "rgba(0, 0, 0, 0.9)", width := some (5/2), dash := some "dot" },
      name := some "EMA200", visible := some false }),
   ("PDI",
    { line := some { color := some "rgba(0, 128, 0, 0.9)", width := some 2 },
      name := some "PDI", visible := some false }),
   ("NDI",
    { line := some { color := some "rgba(220, 20, 60, 0.9)", width := some 2 },
      name := some "NDI", visible := some false }),
   ("ADX",
    { line := some { color := some "rgba(128, 128, 128, 1)", width := some 2 },
      name := some "ADX", visible := some false }),
   ("RSI",
    { line := some { color := some "rgba(34, 139, 34, 1)", width := some (5/2) },
      name := some "RSI", visible := some true }),
   ("RSI7",
    { line := some { color := some "rgba(139, 0, 0, 0.9)", width := some 2 },
      name := some "RSI7", visible := some false }),
   ("STOCH_K",
    { line := some { color := some "rgba(65, 105, 225, 1)", width := some 2 },
      name := some "STOCH_K", visible := some true }),
   ("STOCH_D",
    { line := some { color := some "rgba(220, 20, 60, 1)", width := some 2 },
      name := some "STOCH_D", visible := some true }),
   ("MACD",
    { line := some { color := some "rgba(65, 105, 225, 1)", width := some (5/2) },
      name := some "MACD", visible := some true }),
   ("MACD_Signal",
    { line := some { color := some "rgba(220, 20, 60, 1)", width := some (5/2) },
      name := some "MACD信号", visible := some true }),
   ("MACD_Histogram",
    { type := some "bar", marker := some { color := some (MarkerColor.perBar []) },
      name := some "MACD柱状", visible := some true }),
   ("MACD_HF",
    { line := some { color := some "rgba(70, 130, 180, 0.8)", width := some 2 },
      name := some "MACD_HF", visible := some false }),
   ("MACD_HF_Signal",
    { line := some { color := some "rgba(205, 92, 92, 0.8)", width := some 2 },
      name := some "MACD_HF信号", visible := some false }),
   ("MACD_HF_Histogram",
    { type := some "bar", marker := some { color := some (MarkerColor.perBar []) },
      name := some "MACD_HF柱状", visible := some false }),
   ("OBV",
    { line := some { color := some "rgba(70, 130, 180, 1)", width := some (5/2) },
      name := some "OBV", visible := some true }),
   ("OBV_MA",
    { line := some { color := some "rgba(205, 92, 92, 1)", width := some (5/2), dash := some "dash" },
      name := some "OBV均线", visible := some true })]

/-! ### Classifier and style function -/

/-- The per-member match used by `getIndicatorSubplot`'s subplot scan:
`key === ind || key.startsWith(ind + '_') || ind.endsWith(key)`. -/
def subplotMatches (key ind : String) : Bool :=
  key == ind || jsStartsWith key (ind ++ "_") || jsEndsWith ind key

/-- The `for (const [axis, indicators] of Object.entries(...))` loop body:
first axis whose member list matches, else `null`. -/
def findSubplot (key : String) : List (String × List String) → Option String
  | [] => none
  | (axis, indicators) :: rest =>
    if indicators.any (fun ind => subplotMatches key ind) then some axis
    else findSubplot key rest

/-- Source `getIndicatorSubplot(key)`: price pane check first, then the
subplot scan, else `null` (dropped). -/
def getIndicatorSubplot (key : String) : Option String :=
  if INDICATOR_CONFIG_mainPlot.any (fun p => jsStartsWith key p) then some "y"
  else findSubplot key INDICATOR_CONFIG_subplots

/-- JavaScript `v >= 0` on a number-or-`null` value: `null` coerces to `0`. -/
def jsGeZero (v : JSVal) : Bool := decide (0 ≤ v.getD 0)

/-- Positive histogram bar color. -/
def histPosColor : String := "rgba(0, 128, 0, 0.7)"

/-- Negative histogram bar color. -/
def histNegColor : String := "rgba(255, 0, 0, 0.7)"

/-- Fully transparent bar color used for non-finite histogram values. -/
def histTransparentColor : String := "rgba(0,0,0,0)"

/-- Source `getIndicatorStyle(key, values)`. -/
def getIndicatorStyle (key : String) (values : List JSVal) : Style :=
  let visible0 := !(DEFAULT_VISIBLE_hidden.contains key)
  let visible1 :=
    if DEFAULT_VISIBLE_mainPlot.contains key then true
    else if DEFAULT_VISIBLE_oscillators.contains key then true
    else if DEFAULT_VISIBLE_macd.contains key then true
    else if DEFAULT_VISIBLE_bollinger.contains key then true
    else if DEFAULT_VISIBLE_volume.contains key then true
    else visible0
  let style0 : Style :=
    { type := "scatter", mode := some "lines", line := some { width := some 1 },
      visible := visible1 }
  let isHistogram := INDICATOR_CONFIG_histogramTypes.any (fun t => jsIncludes key t)
  let style1 :=
    if isHistogram then
      { style0 with
          type := "bar", mode := none,
          marker := some { color := some (MarkerColor.perBar
            (values.map (fun v => if jsGeZero v then histPosColor else histNegColor))) } }
    else style0
  match INDICATOR_CONFIG_styling.lookup key with
  | some e => mergeStyle style1 e
  | none => style1

/-! ### Traces and trace creators -/

/-- One renderable Plotly trace, with the fields the source writes.  The
candlestick trace fills `open_/high/low/close`; scatter/bar traces fill `y`.
`increasing`/`decreasing` hold the inner `line` objects of the candlestick's
`increasing`/`decreasing` styles. -/
structure Trace where
  x : List String := []
  y : List JSVal := []
  open_ : List JSVal := []
  high : List JSVal := []
  low : List JSVal := []
  close : List JSVal := []
  type : String := "scatter"
  mode : Option String := none
  name : String := ""
  yaxis : String := "y"
  line : Option LineStyle := none
  marker : Option MarkerStyle := none
  fill : Option String := none
  fillcolor : Option String := none
  showlegend : Bool := true
  legendgroup : String := ""
  visible : Bool := true
  increasing : Option LineStyle := none
  decreasing : Option LineStyle := none
deriving DecidableEq

/-- The candlestick trace built by `createPriceTrace` when OHLC is usable. -/
def candleTrace (data : List Row) (symbol : String) : Trace :=
  { x := data.map (fun d => d.Date)
    open_ := data.map (fun d => d.get "Open")
    high := data.map (fun d => d.get "High")
    low := data.map (fun d => d.get "Low")
    close := data.map (fun d => d.get "Close")
    type := "candlestick"
    name := if symbol == "" then "价格" else symbol
    yaxis := "y"
    increasing := some { color := some "#26a69a", width := some 1 }
    decreasing := some { color := some "#ef5350", width := some 1 }
    showlegend := true
    legendgroup := "price"
    visible := true }

/-- The close-only line trace `createPriceTrace` falls back to. -/
def closeLineTrace (data : List Row) (symbol : String) : Trace :=
  { x := data.map (fun d => d.Date)
    y := (data.map (fun d => d.get "Close")).map (fun v => if isNumeric v then v else none)
    type := "scatter"
    mode := some "lines"
    name := symbol ++ " 收盘价"
    yaxis := "y"
    line := some { color := some "rgba(0,0,0,0.7)", width := some 2 }
    showlegend := true
    legendgroup := "price"
    visible := true }

/-- Source `createPriceTrace(data, symbol)`: candlestick when each of
open/high/low/close has a finite value, else a close line, else nothing. -/
def createPriceTrace (data : List Row) (symbol : String) : List Trace :=
  if data.isEmpty then []
  else
    let opens := data.map (fun d => d.get "Open")
    let highs := data.map (fun d => d.get "High")
    let lows := data.map (fun d => d.get "Low")
    let closes := data.map (fun d => d.get "Close")
    let hasOHLC := opens.any isNumeric && highs.any isNumeric &&
                   lows.any isNumeric && closes.any isNumeric
    if hasOHLC then [candleTrace data symbol]
    else if closes.any isNumeric then [closeLineTrace data symbol]
    else []

/-- Whether a column has at least one finite value
(`values.some(isNumeric)` for `values = data.map(d => d[key])`). -/
def hasFinite (data : List Row) (key : String) : Bool :=
  (data.map (fun d => d.get key)).any isNumeric

/-- The cleaned y-values of a column
(`values.map(v => isNumeric(v) ? v : null)`). -/
def cleanVals (data : List Row) (key : String) : List JSVal :=
  (data.map (fun d => d.get key)).map (fun v => if isNumeric v then v else none)

/-- The generic indicator trace pushed by the line-indicator creators:
`{x, y, name: style.name || key, yaxis, showlegend, legendgroup, ...style}`. -/
def mkIndicatorTrace (data : List Row) (key yax grp : String) : Trace :=
  let style := getIndicatorStyle key (cleanVals data key)
  { x := data.map (fun d => d.Date)
    y := cleanVals data key
    name := style.name.getD key
    yaxis := yax
    showlegend := true
    legendgroup := grp
    type := style.type
    mode := style.mode
    line := style.line
    marker := style.marker
    fill := style.fill
    fillcolor := style.fillcolor
    visible := style.visible }

/-- The fixed moving-average key list of `createMATraces`. -/
def maIndicators : List String :=
  ["SMA5", "SMA10", "SMA20", "SMA50", "SMA100", "SMA200",
   "EMA5", "EMA10", "EMA20", "EMA50", "EMA100", "EMA200"]

/-- The per-key emission of `createMATraces` (`forEach` body: skip when the
column has no finite value, else push one trace). -/
def emitMA (data : List Row) (key : String) : List Trace :=
  if hasFinite data key then [mkIndicatorTrace data key "y" "ma"] else []

/-- Source `createMATraces(data)`. -/
def createMATraces (data : List Row) : List Trace :=
  if data.isEmpty then [] else maIndicators.flatMap (emitMA data)

/-- The fixed oscillator key list of `createOscillatorTraces`. -/
def oscillatorIndicators : List String :=
  ["RSI", "RSI7", "STOCH_K", "STOCH_D", "ADX", "PDI", "NDI"]

/-- The per-key emission of `createOscillatorTraces`. -/
def emitOscillator (data : List Row) (key : String) : List Trace :=
  if hasFinite data key then [mkIndicatorTrace data key "y2" "oscillators"] else []

/-- Source `createOscillatorTraces(data)`. -/
def createOscillatorTraces (data : List Row) : List Trace :=
  if data.isEmpty then [] else oscillatorIndicators.flatMap (emitOscillator data)

/-- The fixed MACD key list of `createMACDTraces`. -/
def macdIndicators : List String :=
  ["MACD", "MACD_Signal", "MACD_Histogram", "MACD_HF", "MACD_HF_Signal", "MACD_HF_Histogram"]

/-- The trace pushed by `createMACDTraces` for one key, including the dynamic
histogram recoloring (`isNumeric(v) ? (v >= 0 ? green : red) : transparent`)
that overwrites `style.marker.color` when the key contains `'Histogram'`. -/
def mkMACDTrace (data : List Row) (key : String) : Trace :=
  let style := getIndicatorStyle key (cleanVals data key)
  let style :=
    if jsIncludes key "Histogram" then
      let colors := (cleanVals data key).map (fun v =>
        if isNumeric v then (if jsGeZero v then histPosColor else histNegColor)
        else histTransparentColor)
      { style with marker := some { style.marker.getD {} with color := some (MarkerColor.perBar colors) } }
    else style
  { x := data.map (fun d => d.Date)
    y := cleanVals data key
    name := style.name.getD key
    yaxis := "y3"
    showlegend := true
    legendgroup := "macd"
    type := style.type
    mode := style.mode
    line := style.line
    marker := style.marker
    fill := style.fill
    fillcolor := style.fillcolor
    visible := style.visible }

/-- The per-key emission of `createMACDTraces`. -/
def emitMACD (data : List Row) (key : String) : List Trace :=
  if hasFinite data key then [mkMACDTrace data key] else []

/-- Source `createMACDTraces(data)`. -/
def createMACDTraces (data : List Row) : List Trace :=
  if data.isEmpty then [] else macdIndicators.flatMap (emitMACD data)

/-- The Bollinger groups of `createVolatilityTraces`, each as
(high, mid, low) in declared order. -/
def bbGroups : List (String × String × String) :=
  [("BB_High", "BB_Mid", "BB_Low"),
   ("BB_Tight_High", "BB_Tight_Mid", "BB_Tight_Low"),
   ("BB_Wide_High", "BB_Wide_Mid", "BB_Wide_Low")]

/-- The fixed Ichimoku plotting order of `createVolatilityTraces`. -/
def ichimokuOrder : List String :=
  ["Ichimoku_SpanB", "Ichimoku_SpanA", "Ichimoku_Tenkan", "Ichimoku_Kijun", "Ichimoku_Chikou"]

/-- The per-key emission shared by the volatility-pane blocks. -/
def emitVolatilityKey (data : List Row) (grp key : String) : List Trace :=
  if hasFinite data key then [mkIndicatorTrace data key "y4" grp] else []

/-- Source `createVolatilityTraces(data)`: Bollinger groups (each emitted in
low, mid, high order when the group has any data), then Ichimoku in its fixed
order, then SAR. -/
def createVolatilityTraces (data : List Row) : List Trace :=
  if data.isEmpty then []
  else
    let bb := bbGroups.flatMap (fun g =>
      let hasData := [g.1, g.2.1, g.2.2].any (fun key => data.any (fun d => isNumeric (d.get key)))
      if hasData then [g.2.2, g.2.1, g.1].flatMap (emitVolatilityKey data "volatility")
      else [])
    let ich :=
      let hasIchimoku := ichimokuOrder.any (fun key => data.any (fun d => isNumeric (d.get key)))
      if hasIchimoku then ichimokuOrder.flatMap (emitVolatilityKey data "ichimoku")
      else []
    let sar := emitVolatilityKey data "volatility" "SAR"
    bb ++ ich ++ sar

/-- The fixed volume key list of `createVolumeTraces`. -/
def volumeIndicators : List String := ["OBV", "OBV_MA"]

/-- The per-key emission of `createVolumeTraces`. -/
def emitVolume (data : List Row) (key : String) : List Trace :=
  if hasFinite data key then [mkIndicatorTrace data key "y5" "volume"] else []

/-- Source `createVolumeTraces(data)`. -/
def createVolumeTraces (data : List Row) : List Trace :=
  if data.isEmpty then [] else volumeIndicators.flatMap (emitVolume data)

/-- Source `preparePlotData()`: all traces in creator order. -/
def preparePlotData (data : List Row) (symbol : String) : List Trace :=
  if data.isEmpty then []
  else
    createPriceTrace data symbol ++ createMATraces data ++ createOscillatorTraces data ++
    createMACDTraces data ++ createVolatilityTraces data ++ createVolumeTraces data

/-! ### Layout composer -/

/-- One y-axis of the layout, with the fields the source writes that matter
to the claims (vertical `domain`, fixed `range`, `autorange`, `zeroline`). -/
structure AxisLayout where
  domain : ℚ × ℚ
  titleText : String := ""
  autorange : Bool := true
  range : Option (ℚ × ℚ) := none
  zeroline : Bool := false
  side : String := "right"
deriving DecidableEq

/-- One entry of `layout.shapes`: a reference line. -/
structure Shape where
  type : String := "line"
  xref : String := "paper"
  x0 : ℚ := 0
  x1 : ℚ := 1
  yref : String
  y0 : ℚ
  y1 : ℚ
  line : LineStyle
deriving DecidableEq

/-- The composed figure layout (title, shared x-axis domain, the five pane
axes in top-to-bottom order, reference-line shapes). -/
structure Layout where
  titleText : String
  xaxisDomain : ℚ × ℚ
  xaxisTickformat : String
  yaxis : AxisLayout
  yaxis2 : AxisLayout
  yaxis3 : AxisLayout
  yaxis4 : AxisLayout
  yaxis5 : AxisLayout
  shapes : List Shape
deriving DecidableEq

/-- Source `preparePlotLayout()`.  The layout is built from the request
parameters only (symbol, translated parameter-set label, period — they feed
the title); it does not consult the row data or the traces at all. -/
def preparePlotLayout (symbol parameterSetLabel period : String) : Layout :=
  { titleText := symbol ++ " - " ++ parameterSetLabel ++ " (" ++ period ++ ")"
    xaxisDomain := (0, 1)
    xaxisTickformat := "%Y-%m-%d"
    yaxis := { domain := (68/100, 1), titleText := "Price", autorange := true }
    yaxis2 := { domain := (48/100, 66/100), titleText := "Oscillators", autorange := true,
                range := some (0, 100) }
    yaxis3 := { domain := (28/100, 46/100), titleText := "MACD", autorange := true,
                zeroline := true }
    yaxis4 := { domain := (8/100, 26/100), titleText := "Volatility", autorange := true }
    yaxis5 := { domain := (0, 6/100), titleText := "Volume", autorange := true }
    shapes :=
      [{ yref := "y2", y0 := 70, y1 := 70,
         line := { color := some "rgba(255, 0, 0, 0.6)", width := some 1, dash := some "dash" } },
       { yref := "y2", y0 := 30, y1 := 30,
         line := { color := some "rgba(0, 128, 0, 0.6)", width := some 1, dash := some "dash" } },
       { yref := "y2", y0 := 50, y1 := 50,
         line := { color := some "rgba(120, 120, 120, 0.4)", width := some 1, dash := some "dot" } },
       { yref := "y3", y0 := 0, y1 := 0,
         line := { color := some "rgba(120, 120, 120, 0.5)", width := some 1, dash := some "dot" } }] }

/-- The full pipeline output per render: the trace list plus the layout
(the FigureSpec of the specification). -/
def buildFigure (data : List Row) (symbol parameterSetLabel period : String) :
    List Trace × Layout :=
  (preparePlotData data symbol, preparePlotLayout symbol parameterSetLabel period)

/-! ### Concrete inputs for witnesses and counterexamples -/

/-- A row carrying a full Bollinger triplet (plus close). -/
def rowBB : Row :=
  { Date := "2024-01-02"
    cols := [("Close", some 101), ("BB_High", some 110), ("BB_Mid", some 100), ("BB_Low", some 90)] }

/-- A dataset where the standard Bollinger band triplet is fully present. -/
def dataBB : List Row := [rowBB]

/-- A dataset with full OHLC. -/
def dataOHLC : List Row :=
  [{ Date := "2024-01-02"
     cols := [("Open", some 10), ("High", some 12), ("Low", some 9), ("Close", some 11)] }]

/-- A dataset with only a close column (no OHLC candlestick possible). -/
def dataCloseOnly : List Row :=
  [{ Date := "2024-01-02", cols := [("Close", some 100)] }]

/-- A dataset with a row but no finite price columns at all. -/
def dataNoPrice : List Row :=
  [{ Date := "2024-01-02", cols := [("Close", none)] }]

/-- A dataset where `SMA20` is present as an all-non-finite column while
`EMA20` has data. -/
def dataSMA20Absent : List Row :=
  [{ Date := "2024-01-02", cols := [("Close", some 100), ("SMA20", none), ("EMA20", some 99)] },
   { Date := "2024-01-03", cols := [("Close", some 101), ("EMA20", some 100)] }]

/-- A dataset with a MACD histogram column holding a positive, a negative and
a non-finite value. -/
def dataHist : List Row :=
  [{ Date := "2024-01-02", cols := [("MACD_Histogram", some 1)] },
   { Date := "2024-01-03", cols := [("MACD_Histogram", some (-2))] },
   { Date := "2024-01-04", cols := [("MACD_Histogram", none)] }]

/-- All keys the volatility-pane creator can emit, in emission order
(each Bollinger group in low, mid, high order, then Ichimoku, then SAR). -/
def volatilityKeys : List String :=
  ["BB_Low", "BB_Mid", "BB_High", "BB_Tight_Low", "BB_Tight_Mid", "BB_Tight_High",
   "BB_Wide_Low", "BB_Wide_Mid", "BB_Wide_High",
   "Ichimoku_SpanB", "Ichimoku_SpanA", "Ichimoku_Tenkan", "Ichimoku_Kijun",
   "Ichimoku_Chikou", "SAR"]

/-- The volatility-pane emission for one key, with its legend group as the
source assigns it (Ichimoku keys group "ichimoku", the rest "volatility"). -/
def emitVolatilityAll (data : List Row) (key : String) : List Trace :=
  emitVolatilityKey data (if ichimokuOrder.contains key then "ichimoku" else "volatility") key

/-- Every trace the five indicator creators can emit for one column name:
each creator contributes only when the name is on its hard-coded list. -/
def emissionsFor (data : List Row) (key : String) : List Trace :=
  (if maIndicators.contains key then emitMA data key else []) ++
  (if oscillatorIndicators.contains key then emitOscillator data key else []) ++
  (if macdIndicators.contains key then emitMACD data key else []) ++
  (if volatilityKeys.contains key then emitVolatilityAll data key else []) ++
  (if volumeIndicators.contains key then emitVolume data key else [])

/-! ### Helper lemmas -/

/-- `data.some(d => isNumeric(d[key]))` is the presence test of the column. -/
theorem any_isNumeric_get (data : List Row) (key : String) :
    data.any (fun d => isNumeric (d.get key)) = hasFinite data key := by
  induction data with
  | nil => rfl
  | cons a l ih =>
    simp only [hasFinite, List.map_cons, List.any_cons] at ih ⊢
    rw [ih]

/-- A column with at least one finite value forces a nonempty dataset. -/
theorem isEmpty_false_of_hasFinite (data : List Row) (key : String)
    (hf : hasFinite data key = true) : data.isEmpty = false := by
  cases data with
  | nil => simp [hasFinite] at hf
  | cons a l => rfl

/-- An absent column contributes no volatility-pane emission. -/
theorem emitVolatilityKey_eq_nil (data : List Row) (grp key : String)
    (h : hasFinite data key = false) : emitVolatilityKey data grp key = [] := by
  simp [emitVolatilityKey, h]

/-- The group-level `hasData` guard of `createVolatilityTraces` is redundant:
when it fails, every per-key emission of the guarded block is empty anyway. -/
theorem guard_block (data : List Row) (grp : String) (keys : List String) :
    (if keys.any (fun key => data.any (fun d => isNumeric (d.get key)))
     then keys.flatMap (emitVolatilityKey data grp) else [])
     = keys.flatMap (emitVolatilityKey data grp) := by
  by_cases h : keys.any (fun key => data.any (fun d => isNumeric (d.get key))) = true
  · simp [h]
  · simp only [Bool.not_eq_true] at h
    rw [if_neg (by simp [h])]
    symm
    rw [List.flatMap_eq_nil_iff]
    intro k hk
    apply emitVolatilityKey_eq_nil
    rw [← any_isNumeric_get]
    simpa using List.any_eq_false.mp h k hk

/-- Same, for the Bollinger blocks, whose guard scans in high/mid/low order
while the emission runs in low/mid/high order. -/
theorem bb_block (data : List Row) (h m l : String) :
    (if [h, m, l].any (fun key => data.any (fun d => isNumeric (d.get key)))
     then [l, m, h].flatMap (emitVolatilityKey data "volatility") else [])
     = [l, m, h].flatMap (emitVolatilityKey data "volatility") := by
  by_cases hc : [h, m, l].any (fun key => data.any (fun d => isNumeric (d.get key))) = true
  · simp [hc]
  · simp only [Bool.not_eq_true] at hc
    rw [if_neg (by simp [hc])]
    symm
    rw [List.flatMap_eq_nil_iff]
    intro k hk
    apply emitVolatilityKey_eq_nil
    rw [← any_isNumeric_get]
    have hk' : k ∈ [h, m, l] := by
      simp only [List.mem_cons, List.not_mem_nil, or_false] at hk ⊢
      tauto
    simpa using List.any_eq_false.mp hc k hk'

/-- Variant of `bb_block` whose statement matches the append normal form. -/
theorem bb_block' (data : List Row) (h m l : String) :
    (if [h, m, l].any (fun key => data.any (fun d => isNumeric (d.get key)))
     then emitVolatilityKey data "volatility" l ++
          (emitVolatilityKey data "volatility" m ++ (emitVolatilityKey data "volatility" h ++ []))
     else [])
     = emitVolatilityKey data "volatility" l ++
       (emitVolatilityKey data "volatility" m ++ (emitVolatilityKey data "volatility" h ++ [])) := by
  have e := bb_block data h m l
  simpa only [List.flatMap_cons, List.flatMap_nil] using e

/-- `createVolatilityTraces` is the per-key emission over its fixed key order:
the group-level guards add nothing, so the creator is one guarded emission per
key, in the fixed order `volatilityKeys`. -/
theorem createVolatilityTraces_eq_flatMap (data : List Row) :
    createVolatilityTraces data = volatilityKeys.flatMap (emitVolatilityAll data) := by
  by_cases he : data.isEmpty = true
  · have hd : data = [] := by simpa [List.isEmpty_iff] using he
    subst hd
    rfl
  · have h1 : ichimokuOrder.contains "BB_Low" = false := by decide
    have h2 : ichimokuOrder.contains "BB_Mid" = false := by decide
    have h3 : ichimokuOrder.contains "BB_High" = false := by decide
    have h4 : ichimokuOrder.contains "BB_Tight_Low" = false := by decide
    have h5 : ichimokuOrder.contains "BB_Tight_Mid" = false := by decide
    have h6 : ichimokuOrder.contains "BB_Tight_High" = false := by decide
    have h7 : ichimokuOrder.contains "BB_Wide_Low" = false := by decide
    have h8 : ichimokuOrder.contains "BB_Wide_Mid" = false := by decide
    have h9 : ichimokuOrder.contains "BB_Wide_High" = false := by decide
    have h10 : ichimokuOrder.contains "Ichimoku_SpanB" = true := by decide
    have h11 : ichimokuOrder.contains "Ichimoku_SpanA" = true := by decide
    have h12 : ichimokuOrder.contains "Ichimoku_Tenkan" = true := by decide
    have h13 : ichimokuOrder.contains "Ichimoku_Kijun" = true := by decide
    have h14 : ichimokuOrder.contains "Ichimoku_Chikou" = true := by decide
    have h15 : ichimokuOrder.contains "SAR" = false := by decide
    unfold createVolatilityTraces
    rw [if_neg he]
    simp only [bbGroups, List.flatMap_cons, List.flatMap_nil]
    rw [bb_block' data "BB_High" "BB_Mid" "BB_Low",
        bb_block' data "BB_Tight_High" "BB_Tight_Mid" "BB_Tight_Low",
        bb_block' data "BB_Wide_High" "BB_Wide_Mid" "BB_Wide_Low",
        guard_block data "ichimoku" ichimokuOrder]
    simp only [volatilityKeys, emitVolatilityAll, List.flatMap_cons, List.flatMap_nil,
               h1, h2, h3, h4, h5, h6, h7, h8, h9, h10, h11, h12, h13, h14, h15,
               if_true, if_false]
    simp only [ichimokuOrder, List.flatMap_cons, List.flatMap_nil, List.append_assoc,
               List.append_nil]
    simp

/-! ### Claims -/

/-- C1: any indicator name starting with one of the configured main-plot
name-prefixes (`INDICATOR_CONFIG.mainPlot = ["SMA", "EMA"]`) is classified by
`getIndicatorSubplot` to the price pane axis `"y"`.  The main-plot check is
performed first and returns immediately, so it wins even for a name that
would also match one of the non-price subplot membership lists. -/
theorem C1_mainPlot_priority (key : String)
    (h : INDICATOR_CONFIG_mainPlot.any (fun p => jsStartsWith key p) = true) :
    getIndicatorSubplot key = some "y" := by
  unfold getIndicatorSubplot
  simp [h]

/-- C1 witness: `"SMA20"` matches the main-plot list and lands on `"y"`. -/
theorem C1_witness :
    INDICATOR_CONFIG_mainPlot.any (fun p => jsStartsWith "SMA20" p) = true ∧
    getIndicatorSubplot "SMA20" = some "y" :=
  ⟨by decide, C1_mainPlot_priority "SMA20" (by decide)⟩

/-- C5: for any name that does not match the main-plot prefixes,
`getIndicatorSubplot` scans the subplot membership lists in declared order
(`y2`, `y3`, `y4`, `y5`) and returns the first axis whose list contains a
member `ind` with `key == ind`, or `key` starting with `ind ++ "_"`, or `ind`
ending with `key` (the three-way `subplotMatches`); when no list matches, the
result is `none` (the indicator is dropped, not an error). -/
theorem C5_subplot_scan (key : String)
    (h : INDICATOR_CONFIG_mainPlot.any (fun p => jsStartsWith key p) = false) :
    getIndicatorSubplot key =
      (if subplots_y2.any (fun ind => subplotMatches key ind) then some "y2"
       else if subplots_y3.any (fun ind => subplotMatches key ind) then some "y3"
       else if subplots_y4.any (fun ind => subplotMatches key ind) then some "y4"
       else if subplots_y5.any (fun ind => subplotMatches key ind) then some "y5"
       else none) ∧
    (getIndicatorSubplot key = none ↔
      ∀ pair ∈ INDICATOR_CONFIG_subplots, ∀ ind ∈ pair.2, subplotMatches key ind = false) := by
  have heq : getIndicatorSubplot key =
      (if subplots_y2.any (fun ind => subplotMatches key ind) then some "y2"
       else if subplots_y3.any (fun ind => subplotMatches key ind) then some "y3"
       else if subplots_y4.any (fun ind => subplotMatches key ind) then some "y4"
       else if subplots_y5.any (fun ind => subplotMatches key ind) then some "y5"
       else none) := by
    unfold getIndicatorSubplot
    rw [if_neg (by simp [h])]
    simp only [INDICATOR_CONFIG_subplots, findSubplot]
  refine ⟨heq, ?_⟩
  rw [heq]
  constructor
  · intro hnone pair hpair ind hind
    by_cases h2 : subplots_y2.any (fun ind => subplotMatches key ind) = true
    · simp [h2] at hnone
    · by_cases h3 : subplots_y3.any (fun ind => subplotMatches key ind) = true
      · simp [h2, h3] at hnone
      · by_cases h4 : subplots_y4.any (fun ind => subplotMatches key ind) = true
        · simp [h2, h3, h4] at hnone
        · by_cases h5 : subplots_y5.any (fun ind => subplotMatches key ind) = true
          · simp [h2, h3, h4, h5] at hnone
          · simp only [Bool.not_eq_true] at h2 h3 h4 h5
            simp only [INDICATOR_CONFIG_subplots, List.mem_cons, List.not_mem_nil,
                       or_false] at hpair
            rcases hpair with hp | hp | hp | hp <;> subst hp <;>
              simpa using List.any_eq_false.mp (by assumption) ind hind
  · intro hall
    have e2 : subplots_y2.any (fun ind => subplotMatches key ind) = false := by
      rw [List.any_eq_false]
      intro ind hind
      simp [hall ("y2", subplots_y2) (by simp [INDICATOR_CONFIG_subplots]) ind hind]
    have e3 : subplots_y3.any (fun ind => subplotMatches key ind) = false := by
      rw [List.any_eq_false]
      intro ind hind
      simp [hall ("y3", subplots_y3) (by simp [INDICATOR_CONFIG_subplots]) ind hind]
    have e4 : subplots_y4.any (fun ind => subplotMatches key ind) = false := by
      rw [List.any_eq_false]
      intro ind hind
      simp [hall ("y4", subplots_y4) (by simp [INDICATOR_CONFIG_subplots]) ind hind]
    have e5 : subplots_y5.any (fun ind => subplotMatches key ind) = false := by
      rw [List.any_eq_false]
      intro ind hind
      simp [hall ("y5", subplots_y5) (by simp [INDICATOR_CONFIG_subplots]) ind hind]
    simp [e2, e3, e4, e5]

/-- C5 witness: `"RSI"` is not a main-plot name and lands on `"y2"`; the
unknown name `"FOO"` matches nothing and is dropped (`none`). -/
theorem C5_witness :
    getIndicatorSubplot "RSI" = some "y2" ∧ getIndicatorSubplot "FOO" = none :=
  ⟨((C5_subplot_scan "RSI" (by decide)).1).trans (by decide),
   ((C5_subplot_scan "FOO" (by decide)).1).trans (by decide)⟩

/-- C9: the full pipeline (trace preparation plus layout composition) is a
pure function of the row data and the request parameters (symbol, translated
parameter-set label, period): two runs on identical inputs produce identical
FigureSpec output.  The embedding is total and reads no state beyond the
static configuration tables, which the source never mutates. -/
theorem C9_pipeline_deterministic (data1 data2 : List Row)
    (s1 s2 l1 l2 p1 p2 : String)
    (hd : data1 = data2) (hs : s1 = s2) (hl : l1 = l2) (hp : p1 = p2) :
    buildFigure data1 s1 l1 p1 = buildFigure data2 s2 l2 p2 := by
  subst hd; subst hs; subst hl; subst hp
  rfl

/-- C9 witness: two renders of the close-only dataset coincide. -/
theorem C9_witness :
    buildFigure dataCloseOnly "SYM" "default" "1y" =
      buildFigure dataCloseOnly "SYM" "default" "1y" :=
  C9_pipeline_deterministic dataCloseOnly dataCloseOnly "SYM" "SYM" "default" "default"
    "1y" "1y" rfl rfl rfl rfl

/-- C2: when the standard Bollinger triplet `BB_High`, `BB_Mid`, `BB_Low` each
have at least one finite value, `createVolatilityTraces` emits exactly the
three traces Low, Mid, High — in that order, as the first three traces of its
output — and the Low trace carries `fill = "tonexty"` (fill to the
immediately preceding trace), while Mid and High carry no fill. -/
theorem C2_band_order (data : List Row)
    (hH : hasFinite data "BB_High" = true) (hM : hasFinite data "BB_Mid" = true)
    (hL : hasFinite data "BB_Low" = true) :
    (createVolatilityTraces data).take 3 =
      [mkIndicatorTrace data "BB_Low" "y4" "volatility",
       mkIndicatorTrace data "BB_Mid" "y4" "volatility",
       mkIndicatorTrace data "BB_High" "y4" "volatility"] ∧
    (mkIndicatorTrace data "BB_Low" "y4" "volatility").fill = some "tonexty" ∧
    (mkIndicatorTrace data "BB_Mid" "y4" "volatility").fill = none ∧
    (mkIndicatorTrace data "BB_High" "y4" "volatility").fill = none := by
  refine ⟨?_, rfl, rfl, rfl⟩
  have he := isEmpty_false_of_hasFinite data "BB_Low" hL
  unfold createVolatilityTraces
  rw [if_neg (by simp [he])]
  simp only [bbGroups, List.flatMap_cons, List.flatMap_nil]
  have hguard : (["BB_High", "BB_Mid", "BB_Low"].any
      (fun key => data.any (fun d => isNumeric (d.get key)))) = true := by
    simp only [List.any_cons, List.any_nil, any_isNumeric_get, hH, hM, hL]
    rfl
  rw [if_pos hguard]
  simp only [emitVolatilityKey, hH, hM, hL, if_true, List.cons_append, List.nil_append]
  rfl

/-- C2 witness: on the concrete dataset `dataBB` the volatility creator's
first three traces are the Bollinger Low, Mid, High traces in that order. -/
theorem C2_witness :
    (createVolatilityTraces dataBB).take 3 =
      [mkIndicatorTrace dataBB "BB_Low" "y4" "volatility",
       mkIndicatorTrace dataBB "BB_Mid" "y4" "volatility",
       mkIndicatorTrace dataBB "BB_High" "y4" "volatility"] ∧
    (mkIndicatorTrace dataBB "BB_Low" "y4" "volatility").fill = some "tonexty" ∧
    (mkIndicatorTrace dataBB "BB_Mid" "y4" "volatility").fill = none ∧
    (mkIndicatorTrace dataBB "BB_High" "y4" "volatility").fill = none :=
  C2_band_order dataBB (by decide) (by decide) (by decide)

/-- `createPriceTrace` in guarded normal form (the `let`s zeta-reduced). -/
theorem createPriceTrace_eq (data : List Row) (symbol : String) :
    createPriceTrace data symbol =
      if data.isEmpty then []
      else if ((data.map (fun d => d.get "Open")).any isNumeric &&
               (data.map (fun d => d.get "High")).any isNumeric &&
               (data.map (fun d => d.get "Low")).any isNumeric &&
               (data.map (fun d => d.get "Close")).any isNumeric) then [candleTrace data symbol]
      else if (data.map (fun d => d.get "Close")).any isNumeric then [closeLineTrace data symbol]
      else [] := rfl

/-- C7: the price-trace builder is total and degrades in exactly three tiers:
if each of the open/high/low/close columns has at least one finite value it
returns the single candlestick trace; otherwise, if close has a finite value
it returns the single close line trace (non-finite values as null gaps);
otherwise it returns the empty list. -/
theorem C7_price_trace_tiers (data : List Row) (symbol : String) :
    ((data.map (fun d => d.get "Open")).any isNumeric = true →
     (data.map (fun d => d.get "High")).any isNumeric = true →
     (data.map (fun d => d.get "Low")).any isNumeric = true →
     (data.map (fun d => d.get "Close")).any isNumeric = true →
       createPriceTrace data symbol = [candleTrace data symbol] ∧
       (candleTrace data symbol).type = "candlestick") ∧
    (((data.map (fun d => d.get "Open")).any isNumeric &&
      (data.map (fun d => d.get "High")).any isNumeric &&
      (data.map (fun d => d.get "Low")).any isNumeric &&
      (data.map (fun d => d.get "Close")).any isNumeric) = false →
     (data.map (fun d => d.get "Close")).any isNumeric = true →
       createPriceTrace data symbol = [closeLineTrace data symbol] ∧
       (closeLineTrace data symbol).type = "scatter") ∧
    ((data.map (fun d => d.get "Close")).any isNumeric = false →
       createPriceTrace data symbol = []) := by
  refine ⟨?_, ?_, ?_⟩
  · intro hO hH hL hC
    have hne : data.isEmpty = false := isEmpty_false_of_hasFinite data "Close" hC
    refine ⟨?_, rfl⟩
    rw [createPriceTrace_eq, if_neg (by simp [hne]), if_pos (by simp [hO, hH, hL, hC])]
  · intro hOHLC hC
    have hne : data.isEmpty = false := isEmpty_false_of_hasFinite data "Close" hC
    refine ⟨?_, rfl⟩
    rw [createPriceTrace_eq, if_neg (by simp [hne]), if_neg (by simp [hOHLC]), if_pos hC]
  · intro hC
    by_cases he : data.isEmpty = true
    · rw [createPriceTrace_eq, if_pos he]
    · have hOHLC : ((data.map (fun d => d.get "Open")).any isNumeric &&
          (data.map (fun d => d.get "High")).any isNumeric &&
          (data.map (fun d => d.get "Low")).any isNumeric &&
          (data.map (fun d => d.get "Close")).any isNumeric) = false := by
        simp [hC]
      rw [createPriceTrace_eq, if_neg he, if_neg (by simp [hOHLC]), if_neg (by simp [hC])]

/-- C7 witness: the three tiers realized on concrete datasets — full OHLC
gives the candlestick, close-only gives the line, no finite price columns
gives no price trace. -/
theorem C7_witness :
    createPriceTrace dataOHLC "X" = [candleTrace dataOHLC "X"] ∧
    createPriceTrace dataCloseOnly "X" = [closeLineTrace dataCloseOnly "X"] ∧
    createPriceTrace dataNoPrice "X" = [] :=
  ⟨((C7_price_trace_tiers dataOHLC "X").1 (by decide) (by decide) (by decide) (by decide)).1,
   ((C7_price_trace_tiers dataCloseOnly "X").2.1 (by decide) (by decide)).1,
   (C7_price_trace_tiers dataNoPrice "X").2.2 (by decide)⟩

/-- C3 counterexample: on a close-only dataset every emitted trace sits on
the price pane (`"y"`), i.e. the price pane is the only active pane — yet the
composed layout does not give it the full `[0, 1]` vertical extent: its
domain stays the fixed `[0.68, 1]`, the (inactive) oscillator pane still
receives the domain `[0.48, 0.66]`, and a gap is left between `0.66` and
`0.68`.  So the layout neither restricts domains to active panes nor
re-spaces them into a partition of `[0, 1]`. -/
theorem C3_counterexample :
    ((preparePlotData dataCloseOnly "SYM").all (fun t => t.yaxis == "y")) = true ∧
    (preparePlotData dataCloseOnly "SYM").length = 1 ∧
    (preparePlotLayout "SYM" "default" "1y").yaxis.domain ≠ ((0 : ℚ), 1) ∧
    (preparePlotLayout "SYM" "default" "1y").yaxis2.domain = ((48/100 : ℚ), 66/100) ∧
    (preparePlotLayout "SYM" "default" "1y").yaxis2.domain.2 <
      (preparePlotLayout "SYM" "default" "1y").yaxis.domain.1 := by
  refine ⟨by decide, by decide, ?_, rfl, by show (66/100 : ℚ) < 68/100; norm_num⟩
  intro hcontra
  have h1 : ((68 : ℚ)/100, (1 : ℚ)) = ((0 : ℚ), 1) := hcontra
  have h2 := congrArg Prod.fst h1
  norm_num at h2

/-- C3 amended: the composed layout is static — for every request it assigns
all five panes their fixed domains (price `[0.68, 1]`, oscillator
`[0.48, 0.66]`, MACD `[0.28, 0.46]`, overlay `[0.08, 0.26]`, volume
`[0, 0.06]`), non-overlapping and in the fixed top-to-bottom order price,
oscillator, MACD, overlay, volume, separated by fixed gaps; inactive panes
are not removed and no re-spacing over `[0, 1]` takes place. -/
theorem C3_static_domains (symbol label period : String) :
    (preparePlotLayout symbol label period).yaxis.domain = ((68/100 : ℚ), 1) ∧
    (preparePlotLayout symbol label period).yaxis2.domain = ((48/100 : ℚ), 66/100) ∧
    (preparePlotLayout symbol label period).yaxis3.domain = ((28/100 : ℚ), 46/100) ∧
    (preparePlotLayout symbol label period).yaxis4.domain = ((8/100 : ℚ), 26/100) ∧
    (preparePlotLayout symbol label period).yaxis5.domain = ((0 : ℚ), 6/100) ∧
    (preparePlotLayout symbol label period).yaxis5.domain.2 <
      (preparePlotLayout symbol label period).yaxis4.domain.1 ∧
    (preparePlotLayout symbol label period).yaxis4.domain.2 <
      (preparePlotLayout symbol label period).yaxis3.domain.1 ∧
    (preparePlotLayout symbol label period).yaxis3.domain.2 <
      (preparePlotLayout symbol label period).yaxis2.domain.1 ∧
    (preparePlotLayout symbol label period).yaxis2.domain.2 <
      (preparePlotLayout symbol label period).yaxis.domain.1 :=
  ⟨rfl, rfl, rfl, rfl, rfl,
   by show (6/100 : ℚ) < 8/100; norm_num,
   by show (26/100 : ℚ) < 28/100; norm_num,
   by show (46/100 : ℚ) < 48/100; norm_num,
   by show (66/100 : ℚ) < 68/100; norm_num⟩

/-- C8 counterexample: only two of the oscillator-pane reference lines use
the `"dash"` line style (the 70 and 30 lines); the 50 line is drawn with
`"dot"`.  So the layout does not contain three dashed reference lines at
70/50/30. -/
theorem C8_counterexample :
    ((preparePlotLayout "SYM" "default" "1y").shapes.filter
        (fun s => s.yref == "y2" && s.line.dash == some "dash")).length = 2 ∧
    ((preparePlotLayout "SYM" "default" "1y").shapes.filter
        (fun s => s.yref == "y2" && s.y0 == 50)).map (fun s => s.line.dash) = [some "dot"] :=
  ⟨rfl, rfl⟩

/-- C8 amended: in every composed layout the oscillator value axis carries
the fixed range `[0, 100]` (the layout is built without consulting trace
data), and the oscillator pane has exactly three horizontal reference lines,
at y = 70, 30 and 50: the 70 and 30 lines dashed in contrasting colors (red
and green), the 50 line dotted in neutral gray. -/
theorem C8_oscillator_pane (symbol label period : String) :
    (preparePlotLayout symbol label period).yaxis2.range = some ((0 : ℚ), 100) ∧
    ((preparePlotLayout symbol label period).shapes.filter (fun s => s.yref == "y2")).map
        (fun s => (s.type, s.x0, s.x1, s.y0, s.y1, s.line.dash, s.line.color)) =
      [("line", (0 : ℚ), (1 : ℚ), (70 : ℚ), (70 : ℚ), some "dash", some "rgba(255, 0, 0, 0.6)"),
       ("line", 0, 1, 30, 30, some "dash", some "rgba(0, 128, 0, 0.6)"),
       ("line", 0, 1, 50, 50, some "dot", some "rgba(120, 120, 120, 0.4)")] :=
  ⟨rfl, rfl⟩

/-- The styling-table merge leaves `name` exactly the table entry's name. -/
theorem getIndicatorStyle_name (key : String) (values : List JSVal) :
    (getIndicatorStyle key values).name =
      (INDICATOR_CONFIG_styling.lookup key).bind (fun e => e.name) := by
  unfold getIndicatorStyle
  cases hl : INDICATOR_CONFIG_styling.lookup key with
  | none =>
    simp only [hl]
    split <;> rfl
  | some e =>
    have hr : ((some e).bind fun x => x.name) = e.name := rfl
    simp only [hl, mergeStyle, hr]
    cases hn : e.name with
    | none => simp only [hn]; split <;> rfl
    | some n => simp [hn]

/-- A generic indicator trace's display name comes from the styling table,
defaulting to the column key. -/
theorem mkIndicatorTrace_name (data : List Row) (key yax grp : String) :
    (mkIndicatorTrace data key yax grp).name =
      ((INDICATOR_CONFIG_styling.lookup key).bind (fun e => e.name)).getD key := by
  show ((getIndicatorStyle key (cleanVals data key)).name).getD key = _
  rw [getIndicatorStyle_name]

/-- For every moving-average and oscillator key the configured display name
is the key itself. -/
theorem ma_osc_names :
    ((maIndicators ++ oscillatorIndicators).all
      (fun k => (((INDICATOR_CONFIG_styling.lookup k).bind (fun e => e.name)).getD k) == k)) = true := by
  decide

/-- Cleaning values to nulls and then coloring by the source's histogram rule
is the spec's three-way map: positive color on finite v ≥ 0, negative color
on finite v < 0, transparent on non-finite. -/
theorem clean_then_histColor (vs : List JSVal) :
    (vs.map (fun v => if isNumeric v then v else none)).map
        (fun v => if isNumeric v then (if jsGeZero v then histPosColor else histNegColor)
          else histTransparentColor) =
      vs.map (fun v =>
        match v with
        | some q => if 0 ≤ q then histPosColor else histNegColor
        | none => histTransparentColor) := by
  induction vs with
  | nil => rfl
  | cons a l ih =>
    simp only [List.map_cons, ih]
    cases a with
    | none => rfl
    | some q => simp [isNumeric, jsGeZero]

/-- C4: a histogram-type MACD indicator (its name contains the histogram
token) with at least one finite value is emitted as a bar trace whose per-bar
color array maps every finite value ≥ 0 to the fixed positive color, every
finite value < 0 to the fixed negative color, and every absent/non-finite
value to the fully transparent color — never coerced to `0` and never given
the positive or negative color. -/
theorem C4_histogram_colors (data : List Row) (key : String)
    (hk : key ∈ macdIndicators) (hh : jsIncludes key "Histogram" = true)
    (hf : hasFinite data key = true) :
    mkMACDTrace data key ∈ createMACDTraces data ∧
    (mkMACDTrace data key).type = "bar" ∧
    (mkMACDTrace data key).marker.bind (fun m => m.color) =
      some (MarkerColor.perBar ((data.map (fun d => d.get key)).map (fun v =>
        match v with
        | some q => if 0 ≤ q then histPosColor else histNegColor
        | none => histTransparentColor))) := by
  have hmem : mkMACDTrace data key ∈ createMACDTraces data := by
    have he : data.isEmpty = false := isEmpty_false_of_hasFinite data key hf
    simp only [createMACDTraces, if_neg (by simp [he] : ¬data.isEmpty = true), List.mem_flatMap]
    exact ⟨key, hk, by simp [emitMACD, hf]⟩
  have hcase : key = "MACD_Histogram" ∨ key = "MACD_HF_Histogram" := by
    simp only [macdIndicators, List.mem_cons, List.not_mem_nil, or_false] at hk
    rcases hk with hk | hk | hk | hk | hk | hk <;> subst hk <;> first
      | exact Or.inl rfl
      | exact Or.inr rfl
      | (exfalso; revert hh; decide)
  rcases hcase with hkey | hkey <;> subst hkey
  · have h1 := clean_then_histColor (data.map (fun d => d.get "MACD_Histogram"))
    exact ⟨hmem, rfl, congrArg (fun cs => some (MarkerColor.perBar cs)) h1⟩
  · have h1 := clean_then_histColor (data.map (fun d => d.get "MACD_HF_Histogram"))
    exact ⟨hmem, rfl, congrArg (fun cs => some (MarkerColor.perBar cs)) h1⟩

/-- C4 witness: on `dataHist` (values 1, -2, absent) the emitted bar colors
are positive, negative, transparent. -/
theorem C4_witness :
    mkMACDTrace dataHist "MACD_Histogram" ∈ createMACDTraces dataHist ∧
    (mkMACDTrace dataHist "MACD_Histogram").type = "bar" ∧
    (mkMACDTrace dataHist "MACD_Histogram").marker.bind (fun m => m.color) =
      some (MarkerColor.perBar ((dataHist.map (fun d => d.get "MACD_Histogram")).map (fun v =>
        match v with
        | some q => if 0 ≤ q then histPosColor else histNegColor
        | none => histTransparentColor))) :=
  C4_histogram_colors dataHist "MACD_Histogram" (by decide) (by decide) (by decide)

/-- C6: a column with no finite value in any row is entirely excluded from
the output trace list: its per-key emission in each of the five indicator
creators — and hence in `emissionsFor`, their union — is empty, so no trace
object is built for the column anywhere in the combined `preparePlotData`
list (each creator is the per-key `flatMap` of these emissions over its
fixed key list: definitionally for the moving-average, oscillator, MACD and
volume creators, and by the stated normal-form conjunct for the volatility
creator).  In addition, for the moving-average and oscillator creators,
whose display names coincide with their keys, every trace they do emit
carries a different indicator's name. -/
theorem C6_absent_column_excluded (data : List Row) (key : String)
    (h : hasFinite data key = false) :
    (emitMA data key = [] ∧ emitOscillator data key = [] ∧ emitMACD data key = [] ∧
     (∀ grp, emitVolatilityKey data grp key = []) ∧ emitVolume data key = [] ∧
     emissionsFor data key = []) ∧
    (createVolatilityTraces data = volatilityKeys.flatMap (emitVolatilityAll data)) ∧
    (∀ t ∈ createMATraces data, t.name ≠ key) ∧
    (∀ t ∈ createOscillatorTraces data, t.name ≠ key) := by
  refine ⟨⟨by simp [emitMA, h], by simp [emitOscillator, h], by simp [emitMACD, h],
           fun grp => by simp [emitVolatilityKey, h], by simp [emitVolume, h],
           by simp [emissionsFor, emitMA, emitOscillator, emitMACD, emitVolatilityAll,
                    emitVolatilityKey, emitVolume, h]⟩,
         createVolatilityTraces_eq_flatMap data, ?_, ?_⟩
  · intro t ht
    by_cases he : data.isEmpty = true
    · simp only [createMATraces, if_pos he] at ht
      simp at ht
    · simp only [createMATraces, if_neg he, List.mem_flatMap] at ht
      obtain ⟨k, hk, ht⟩ := ht
      by_cases hf : hasFinite data k = true
      · simp only [emitMA, if_pos hf, List.mem_singleton] at ht
        subst ht
        rw [mkIndicatorTrace_name]
        have hname := List.all_eq_true.mp ma_osc_names k (by simp [hk])
        have heq : (((INDICATOR_CONFIG_styling.lookup k).bind (fun e => e.name)).getD k) = k := by
          simpa using hname
        rw [heq]
        intro hkey
        subst hkey
        rw [h] at hf
        simp at hf
      · simp only [emitMA, if_neg hf] at ht
        simp at ht
  · intro t ht
    by_cases he : data.isEmpty = true
    · simp only [createOscillatorTraces, if_pos he] at ht
      simp at ht
    · simp only [createOscillatorTraces, if_neg he, List.mem_flatMap] at ht
      obtain ⟨k, hk, ht⟩ := ht
      by_cases hf : hasFinite data k = true
      · simp only [emitOscillator, if_pos hf, List.mem_singleton] at ht
        subst ht
        rw [mkIndicatorTrace_name]
        have hname := List.all_eq_true.mp ma_osc_names k (by simp [hk])
        have heq : (((INDICATOR_CONFIG_styling.lookup k).bind (fun e => e.name)).getD k) = k := by
          simpa using hname
        rw [heq]
        intro hkey
        subst hkey
        rw [h] at hf
        simp at hf
      · simp only [emitOscillator, if_neg hf] at ht
        simp at ht

/-- C6 witness: on `dataSMA20Absent` the all-absent `SMA20` column (while
`EMA20` has data) and the absent `OBV` column each produce empty emissions in
every creator, and no moving-average or oscillator trace carries their
names. -/
theorem C6_witness :
    ((emitMA dataSMA20Absent "SMA20" = [] ∧ emitOscillator dataSMA20Absent "SMA20" = [] ∧
      emitMACD dataSMA20Absent "SMA20" = [] ∧
      (∀ grp, emitVolatilityKey dataSMA20Absent grp "SMA20" = []) ∧
      emitVolume dataSMA20Absent "SMA20" = [] ∧
      emissionsFor dataSMA20Absent "SMA20" = []) ∧
     (createVolatilityTraces dataSMA20Absent =
       volatilityKeys.flatMap (emitVolatilityAll dataSMA20Absent)) ∧
     (∀ t ∈ createMATraces dataSMA20Absent, t.name ≠ "SMA20") ∧
     (∀ t ∈ createOscillatorTraces dataSMA20Absent, t.name ≠ "SMA20")) ∧
    ((emitMA dataSMA20Absent "OBV" = [] ∧ emitOscillator dataSMA20Absent "OBV" = [] ∧
      emitMACD dataSMA20Absent "OBV" = [] ∧
      (∀ grp, emitVolatilityKey dataSMA20Absent grp "OBV" = []) ∧
      emitVolume dataSMA20Absent "OBV" = [] ∧
      emissionsFor dataSMA20Absent "OBV" = []) ∧
     (createVolatilityTraces dataSMA20Absent =
       volatilityKeys.flatMap (emitVolatilityAll dataSMA20Absent)) ∧
     (∀ t ∈ createMATraces dataSMA20Absent, t.name ≠ "OBV") ∧
     (∀ t ∈ createOscillatorTraces dataSMA20Absent, t.name ≠ "OBV")) :=
  ⟨C6_absent_column_excluded dataSMA20Absent "SMA20" (by decide),
   C6_absent_column_excluded dataSMA20Absent "OBV" (by decide)⟩

/-- The five creators' hard-coded key lists are pairwise disjoint. -/
theorem disj_pairs :
    (maIndicators.all (fun k => !(oscillatorIndicators.contains k))) = true ∧
    (maIndicators.all (fun k => !(macdIndicators.contains k))) = true ∧
    (maIndicators.all (fun k => !(volatilityKeys.contains k))) = true ∧
    (maIndicators.all (fun k => !(volumeIndicators.contains k))) = true ∧
    (oscillatorIndicators.all (fun k => !(macdIndicators.contains k))) = true ∧
    (oscillatorIndicators.all (fun k => !(volatilityKeys.contains k))) = true ∧
    (oscillatorIndicators.all (fun k => !(volumeIndicators.contains k))) = true ∧
    (macdIndicators.all (fun k => !(volatilityKeys.contains k))) = true ∧
    (macdIndicators.all (fun k => !(volumeIndicators.contains k))) = true ∧
    (volatilityKeys.all (fun k => !(volumeIndicators.contains k))) = true := by
  decide

/-- Membership in the first of two lists certified disjoint excludes the
second. -/
theorem notContains_of_mem {l1 l2 : List String}
    (d : (l1.all (fun k => !(l2.contains k))) = true)
    {key : String} (m : key ∈ l1) : l2.contains key = false := by
  simpa using List.all_eq_true.mp d key m

/-- Across the five creators a single column name yields at most one trace. -/
theorem emissionsFor_len (data : List Row) (key : String) :
    (emissionsFor data key).length ≤ 1 := by
  by_cases c1 : maIndicators.contains key = true
  · have m1 : key ∈ maIndicators := by simpa using c1
    have e2 : key ∉ oscillatorIndicators := by simpa using notContains_of_mem disj_pairs.1 m1
    have e3 : key ∉ macdIndicators := by simpa using notContains_of_mem disj_pairs.2.1 m1
    have e4 : key ∉ volatilityKeys := by simpa using notContains_of_mem disj_pairs.2.2.1 m1
    have e5 : key ∉ volumeIndicators := by simpa using notContains_of_mem disj_pairs.2.2.2.1 m1
    simp [emissionsFor, m1, e2, e3, e4, e5, emitMA]
    split <;> simp
  · have c1' : key ∉ maIndicators := by simpa using c1
    by_cases c2 : oscillatorIndicators.contains key = true
    · have m2 : key ∈ oscillatorIndicators := by simpa using c2
      have e3 : key ∉ macdIndicators := by
        simpa using notContains_of_mem disj_pairs.2.2.2.2.1 m2
      have e4 : key ∉ volatilityKeys := by
        simpa using notContains_of_mem disj_pairs.2.2.2.2.2.1 m2
      have e5 : key ∉ volumeIndicators := by
        simpa using notContains_of_mem disj_pairs.2.2.2.2.2.2.1 m2
      simp [emissionsFor, c1', m2, e3, e4, e5, emitOscillator]
      split <;> simp
    · have c2' : key ∉ oscillatorIndicators := by simpa using c2
      by_cases c3 : macdIndicators.contains key = true
      · have m3 : key ∈ macdIndicators := by simpa using c3
        have e4 : key ∉ volatilityKeys := by
          simpa using notContains_of_mem disj_pairs.2.2.2.2.2.2.2.1 m3
        have e5 : key ∉ volumeIndicators := by
          simpa using notContains_of_mem disj_pairs.2.2.2.2.2.2.2.2.1 m3
        simp [emissionsFor, c1', c2', m3, e4, e5, emitMACD]
        split <;> simp
      · have c3' : key ∉ macdIndicators := by simpa using c3
        by_cases c4 : volatilityKeys.contains key = true
        · have m4 : key ∈ volatilityKeys := by simpa using c4
          have e5 : key ∉ volumeIndicators := by
            simpa using notContains_of_mem disj_pairs.2.2.2.2.2.2.2.2.2 m4
          simp [emissionsFor, c1', c2', c3', m4, e5, emitVolatilityAll, emitVolatilityKey]
          split <;> simp
        · have c4' : key ∉ volatilityKeys := by simpa using c4
          by_cases c5 : volumeIndicators.contains key = true
          · have m5 : key ∈ volumeIndicators := by simpa using c5
            simp [emissionsFor, c1', c2', c3', c4', m5, emitVolume]
            split <;> simp
          · have c5' : key ∉ volumeIndicators := by simpa using c5
            simp [emissionsFor, c1', c2', c3', c4', c5']

/-- Every moving-average trace sits on the price pane axis `"y"`. -/
theorem createMATraces_yaxis (data : List Row) :
    (createMATraces data).all (fun t => t.yaxis == "y") = true := by
  rw [List.all_eq_true]
  intro t ht
  by_cases he : data.isEmpty = true
  · simp [createMATraces, he] at ht
  · simp only [createMATraces, if_neg he, List.mem_flatMap] at ht
    obtain ⟨k, hk, ht⟩ := ht
    by_cases hf : hasFinite data k = true
    · simp only [emitMA, if_pos hf, List.mem_singleton] at ht
      subst ht
      rfl
    · simp [emitMA, hf] at ht

/-- Every oscillator trace sits on axis `"y2"`. -/
theorem createOscillatorTraces_yaxis (data : List Row) :
    (createOscillatorTraces data).all (fun t => t.yaxis == "y2") = true := by
  rw [List.all_eq_true]
  intro t ht
  by_cases he : data.isEmpty = true
  · simp [createOscillatorTraces, he] at ht
  · simp only [createOscillatorTraces, if_neg he, List.mem_flatMap] at ht
    obtain ⟨k, hk, ht⟩ := ht
    by_cases hf : hasFinite data k = true
    · simp only [emitOscillator, if_pos hf, List.mem_singleton] at ht
      subst ht
      rfl
    · simp [emitOscillator, hf] at ht

/-- Every MACD-group trace sits on axis `"y3"`. -/
theorem createMACDTraces_yaxis (data : List Row) :
    (createMACDTraces data).all (fun t => t.yaxis == "y3") = true := by
  rw [List.all_eq_true]
  intro t ht
  by_cases he : data.isEmpty = true
  · simp [createMACDTraces, he] at ht
  · simp only [createMACDTraces, if_neg he, List.mem_flatMap] at ht
    obtain ⟨k, hk, ht⟩ := ht
    by_cases hf : hasFinite data k = true
    · simp only [emitMACD, if_pos hf, List.mem_singleton] at ht
      subst ht
      rfl
    · simp [emitMACD, hf] at ht

/-- Every volatility-pane trace sits on axis `"y4"`. -/
theorem createVolatilityTraces_yaxis (data : List Row) :
    (createVolatilityTraces data).all (fun t => t.yaxis == "y4") = true := by
  rw [createVolatilityTraces_eq_flatMap, List.all_eq_true]
  intro t ht
  rw [List.mem_flatMap] at ht
  obtain ⟨k, hk, ht⟩ := ht
  by_cases hf : hasFinite data k = true
  · simp only [emitVolatilityAll, emitVolatilityKey, if_pos hf, List.mem_singleton] at ht
    subst ht
    rfl
  · simp [emitVolatilityAll, emitVolatilityKey, hf] at ht

/-- Every volume trace sits on axis `"y5"`. -/
theorem createVolumeTraces_yaxis (data : List Row) :
    (createVolumeTraces data).all (fun t => t.yaxis == "y5") = true := by
  rw [List.all_eq_true]
  intro t ht
  by_cases he : data.isEmpty = true
  · simp [createVolumeTraces, he] at ht
  · simp only [createVolumeTraces, if_neg he, List.mem_flatMap] at ht
    obtain ⟨k, hk, ht⟩ := ht
    by_cases hf : hasFinite data k = true
    · simp only [emitVolume, if_pos hf, List.mem_singleton] at ht
      subst ht
      rfl
    · simp [emitVolume, hf] at ht

/-- C10: the per-pane trace creators' hard-coded key lists are pairwise
disjoint, each creator binds all its traces to one constant pane axis
(moving averages `"y"`, oscillators `"y2"`, MACD `"y3"`, volatility/bands
`"y4"`, volume `"y5"`), and consequently every indicator column name yields
at most one trace across the five creators (`emissionsFor` collects, per
column name, exactly the per-key emissions the creators are built from; the
first conjunct ties the one creator that is not literally a per-key
`flatMap` — the volatility creator with its redundant group guards — to that
form). -/
theorem C10_one_trace_per_column_fixed_axis :
    (∀ data : List Row,
      createVolatilityTraces data = volatilityKeys.flatMap (emitVolatilityAll data)) ∧
    ((maIndicators.all (fun k => !(oscillatorIndicators.contains k))) = true ∧
     (maIndicators.all (fun k => !(macdIndicators.contains k))) = true ∧
     (maIndicators.all (fun k => !(volatilityKeys.contains k))) = true ∧
     (maIndicators.all (fun k => !(volumeIndicators.contains k))) = true ∧
     (oscillatorIndicators.all (fun k => !(macdIndicators.contains k))) = true ∧
     (oscillatorIndicators.all (fun k => !(volatilityKeys.contains k))) = true ∧
     (oscillatorIndicators.all (fun k => !(volumeIndicators.contains k))) = true ∧
     (macdIndicators.all (fun k => !(volatilityKeys.contains k))) = true ∧
     (macdIndicators.all (fun k => !(volumeIndicators.contains k))) = true ∧
     (volatilityKeys.all (fun k => !(volumeIndicators.contains k))) = true) ∧
    (∀ (data : List Row) (key : String), (emissionsFor data key).length ≤ 1) ∧
    (∀ data : List Row, (createMATraces data).all (fun t => t.yaxis == "y") = true) ∧
    (∀ data : List Row, (createOscillatorTraces data).all (fun t => t.yaxis == "y2") = true) ∧
    (∀ data : List Row, (createMACDTraces data).all (fun t => t.yaxis == "y3") = true) ∧
    (∀ data : List Row, (createVolatilityTraces data).all (fun t => t.yaxis == "y4") = true) ∧
    (∀ data : List Row, (createVolumeTraces data).all (fun t => t.yaxis == "y5") = true) :=
  ⟨createVolatilityTraces_eq_flatMap, disj_pairs, emissionsFor_len, createMATraces_yaxis,
   createOscillatorTraces_yaxis, createMACDTraces_yaxis, createVolatilityTraces_yaxis,
   createVolumeTraces_yaxis⟩

end FAnalysis
